import Mathlib

/-!
Shallow embedding of the AI-Powered Sports Commentary Generator core
(`src/commentary/analyzer.py`, `src/commentary/generator.py`,
`src/utils/validators.py`).

Python dictionaries whose key sets are fixed by the code become Lean
structures; keys read with `dict.get(k, default)` become `Option` fields;
numeric values become `ℚ`; code that can raise becomes `Except PyErr`.
-/

/-- Exceptions that the embedded Python code can raise.  `validationError`
carries the message passed to the `ValidationError` constructor in
`src/utils/validators.py`. -/
inductive PyErr where
  | keyError : PyErr
  | attributeError : PyErr
  | valueError : PyErr
  | zeroDivisionError : PyErr
  | indexError : PyErr
  | validationError : String → PyErr
deriving DecidableEq, Repr

deriving instance DecidableEq for Except

/-- Python `min(a, b)`: the first argument when the two are equal.  Written
out with the executable order on `ℚ` so that concrete values reduce in the
kernel. -/
def pyMin (a b : ℚ) : ℚ := if a ≤ b then a else b

/-- Round a rational to the nearest integer, ties to even — the semantics of
Python 3 `round` (banker's rounding), applied here to exact rationals. -/
def roundHalfEven (x : ℚ) : ℤ :=
  let f : ℤ := ⌊x⌋
  let r : ℚ := x - f
  if r < 1/2 then f
  else if 1/2 < r then f + 1
  else if f % 2 = 0 then f else f + 1

/-- Python `round(x, 2)` on exact rationals. -/
def pyRound2 (x : ℚ) : ℚ := (roundHalfEven (x * 100) : ℚ) / 100

/-- Python `round(x, 3)` on exact rationals. -/
def pyRound3 (x : ℚ) : ℚ := (roundHalfEven (x * 1000) : ℚ) / 1000

/-- ASCII decimal digit test (the only characters these inputs carry). -/
def charIsDigit (c : Char) : Bool := 48 ≤ c.toNat && c.toNat ≤ 57

/-- Numeric value of a list of decimal digit characters. -/
def parseDigits (l : List Char) : Nat :=
  l.foldl (fun n c => n * 10 + (c.toNat - 48)) 0

/-- Accumulator recursion behind `pySplit`. -/
def splitCharAux (sep : Char) : List Char → List Char → List (List Char)
  | [], acc => [acc.reverse]
  | c :: cs, acc =>
      if c = sep then acc.reverse :: splitCharAux sep cs []
      else splitCharAux sep cs (c :: acc)

/-- Python `s.split(sep)` for a one-character separator (the only form this
code base uses); like Python, the empty string splits to `[""]`. -/
def pySplit (s : String) (sep : Char) : List String :=
  (splitCharAux sep s.data []).map String.mk

/-- ASCII lower-casing of one character, as `str.lower` does on the
ASCII-only event-type strings this code handles. -/
def pyCharLower (c : Char) : Char :=
  if 65 ≤ c.toNat && c.toNat ≤ 90 then Char.ofNat (c.toNat + 32) else c

/-- Python `s.lower()`. -/
def pyToLower (s : String) : String := String.mk (s.data.map pyCharLower)

/-- Python substring test `pat in s`, on the underlying character lists. -/
def hasSubstr (l pat : List Char) : Bool :=
  match l with
  | [] => pat.isEmpty
  | _ :: rest => pat.isPrefixOf l || hasSubstr rest pat

/-- Python `c in s` for a single character. -/
def pyStrContains (s : String) (c : Char) : Bool := s.data.contains c

/-- Python `s[:n]` for a non-negative bound. -/
def pyTake (s : String) (n : Nat) : String := String.mk (s.data.take n)

/-- Python `int(s)` restricted to the strings this code base feeds it:
an optional minus sign followed by decimal digits parses, anything else
raises `ValueError`. -/
def pyInt (s : String) : Except PyErr Int :=
  match s.data with
  | '-' :: rest =>
      if !rest.isEmpty && rest.all charIsDigit then .ok (-(parseDigits rest : Int))
      else .error .valueError
  | l =>
      if !l.isEmpty && l.all charIsDigit then .ok (parseDigits l : Int)
      else .error .valueError

/-- Python `str.isdigit`: true iff the string is non-empty and all
characters are digits. -/
def pyIsDigit (s : String) : Bool :=
  !s.data.isEmpty && s.data.all charIsDigit

/-- Python `max` over a list of values (`max(d.values())`): raises
`ValueError` on an empty collection. -/
def pyMax (l : List ℚ) : Except PyErr ℚ :=
  match l with
  | [] => .error .valueError
  | x :: xs => .ok (xs.foldl (fun acc v => if acc < v then v else acc) x)

/-- Entry of a snapshot's `recent_events` list, as accessed by the analyzer:
`event['timestamp']`, `event['type']`, `event['description']`,
`event['teams']` are required keys, `event['time_remaining']` is optional
(guarded by `'time_remaining' in event`). -/
structure GameEvent where
  timestamp : String
  type : String
  description : String
  teams : List String
  time_remaining : Option ℚ
deriving DecidableEq, Repr

/-- Entry of a snapshot's `recent_scores` list: the analyzer only reads
`score['team']`. -/
structure ScorePlay where
  team : String
deriving DecidableEq, Repr

/-- A raw statistics snapshot, with exactly the keys the analyzer reads.
Keys read with a bare subscript (`stats['home_team']`) are plain fields;
keys read via `stats.get(k, default)` or guarded by `k in stats` are
`Option` fields (`none` = key absent); `stats.get('recent_events', [])`
and `stats.get('recent_scores', [])` default to the empty list, so those
are plain list fields. -/
structure Stats where
  home_team : String
  away_team : String
  home_score : Int
  away_score : Int
  game_time : String
  recent_events : List GameEvent
  recent_scores : List ScorePlay
  possession : Option String
  home_attempts : Option ℚ
  home_successes : Option ℚ
  home_pressure : Option ℚ
  home_defense : Option ℚ
  away_attempts : Option ℚ
  away_successes : Option ℚ
  away_pressure : Option ℚ
  away_defense : Option ℚ
deriving DecidableEq, Repr

/-- The `GameMoment` dataclass of `analyzer.py`. -/
structure GameMoment where
  timestamp : String
  event_type : String
  importance : ℚ
  description : String
  teams_involved : List String
  score_change : Bool
  momentum_shift : Bool
deriving DecidableEq, Repr

/-- Team side used to index the per-team statistics keys
(`f'{team}_attempts'` with `team` ∈ {`'home'`, `'away'`}). -/
inductive Side where
  | home : Side
  | away : Side
deriving DecidableEq, Repr

/-- Value of `stats.get(f'{team}_attempts', 1)`. -/
def Stats.attemptsOf (s : Stats) : Side → ℚ
  | .home => s.home_attempts.getD 1
  | .away => s.away_attempts.getD 1

/-- True iff the `f'{team}_attempts'` key is present in the snapshot. -/
def Stats.attemptsPresent (s : Stats) : Side → Bool
  | .home => s.home_attempts.isSome
  | .away => s.away_attempts.isSome

/-- Value of `stats.get(f'{team}_successes', 0)`. -/
def Stats.successesOf (s : Stats) : Side → ℚ
  | .home => s.home_successes.getD 0
  | .away => s.away_successes.getD 0

/-- Value of `stats.get(f'{team}_pressure', 0)`. -/
def Stats.pressureOf (s : Stats) : Side → ℚ
  | .home => s.home_pressure.getD 0
  | .away => s.away_pressure.getD 0

/-- Value of `stats.get(f'{team}_defense', 0)`. -/
def Stats.defenseOf (s : Stats) : Side → ℚ
  | .home => s.home_defense.getD 0
  | .away => s.away_defense.getD 0

namespace GameAnalyzer

/-- The `self.significant_events` dictionary, read with
`.get(event['type'].lower(), 0.3)`. -/
def significant_events (t : String) : ℚ :=
  (([("score_change", (0.8 : ℚ)), ("possession_change", 0.4),
     ("timeout", 0.5), ("injury", 0.7),
     ("penalty", 0.6)].lookup t).getD 0.3)

/-- The `self.momentum_threshold` field. -/
def momentum_threshold : ℚ := 0.6

/-- `GameAnalyzer._calculate_event_importance` (analyzer.py lines 135-144):
base weight from `significant_events`, multiplied by
`1 + min(1.0, 1.5 - time_remaining/3600)` when the event carries a
`time_remaining` key, then capped with `min(1.0, ·)`. -/
def calculate_event_importance (event : GameEvent) : ℚ :=
  let base := significant_events (pyToLower event.type)
  let base :=
    match event.time_remaining with
    | some t => base * (1 + pyMin 1 (1.5 - t / 3600))
    | none => base
  pyMin 1 base

/-- Comparison used to embed Python `sorted(key=lambda x: x.importance,
reverse=True)`: Python's stable sort ordered by descending importance is
a stable merge sort with respect to `a.importance ≥ b.importance`. -/
def momentDesc (a b : GameMoment) : Bool := decide (b.importance ≤ a.importance)

/-- The `GameMoment` built for one qualifying event inside the loop of
`_identify_key_moments`: `score_change` is Python `'score' in
event['type'].lower()`, `momentum_shift` is `importance > 0.7`. -/
def momentOfEvent (event : GameEvent) : GameMoment :=
  let importance := calculate_event_importance event
  { timestamp := event.timestamp
    event_type := event.type
    importance := importance
    description := event.description
    teams_involved := event.teams
    score_change := hasSubstr (pyToLower event.type).data ("score".data)
    momentum_shift := decide (0.7 < importance) }

/-- The `key_moments` list accumulated by the `for event in
stats.get('recent_events', [])` loop, in original event order: one moment
per event whose importance reaches `momentum_threshold`. -/
def key_moments_unsorted (stats : Stats) : List GameMoment :=
  stats.recent_events.filterMap (fun event =>
    if momentum_threshold ≤ calculate_event_importance event then
      some (momentOfEvent event)
    else none)

/-- `GameAnalyzer._identify_key_moments` (analyzer.py lines 55-74): the
accumulated moments, stably sorted descending by importance
(`sorted(key_moments, key=lambda x: x.importance, reverse=True)`). -/
def identify_key_moments (stats : Stats) : List GameMoment :=
  (key_moments_unsorted stats).mergeSort momentDesc

/-- One step of the `for score in recent_scores` loop of
`_calculate_momentum`: the scoring team gains 0.1 momentum, the other
team loses 0.1. -/
def momentumStep (home_team : String) (p : ℚ × ℚ) (sp : ScorePlay) : ℚ × ℚ :=
  if sp.team = home_team then (p.1 + 0.1, p.2 - 0.1) else (p.1 - 0.1, p.2 + 0.1)

/-- `GameAnalyzer._calculate_momentum` (analyzer.py lines 76-107), with the
`self.previous_stats` field passed explicitly.  Python division by zero
raises, hence the `Except`; the result pair is (home, away). -/
def calculate_momentum (previous_stats : Option Stats) (stats : Stats) :
    Except PyErr (ℚ × ℚ) :=
  match previous_stats with
  | none => .ok (0.5, 0.5)
  | some _ =>
    let p := stats.recent_scores.foldl (momentumStep stats.home_team) (0.5, 0.5)
    let p :=
      match stats.possession with
      | some poss =>
          if poss = stats.home_team then (p.1 + 0.05, p.2) else (p.1, p.2 + 0.05)
      | none => p
    let total := p.1 + p.2
    if total = 0 then .error .zeroDivisionError
    else .ok (pyRound2 (p.1 / total), pyRound2 (p.2 / total))

/-- `GameAnalyzer._calculate_efficiency` (analyzer.py lines 146-151):
`attempts` defaults to 1 when the key is absent, but a present value of 0
makes `successes / attempts` raise `ZeroDivisionError`. -/
def calculate_efficiency (stats : Stats) (team : Side) : Except PyErr ℚ :=
  let attempts := stats.attemptsOf team
  let successes := stats.successesOf team
  if attempts = 0 then .error .zeroDivisionError
  else .ok (pyRound3 (successes / attempts))

/-- `GameAnalyzer._calculate_pressure` (analyzer.py lines 153-156). -/
def calculate_pressure (stats : Stats) (team : Side) : ℚ :=
  pyMin 1 (stats.pressureOf team / 100)

/-- `GameAnalyzer._calculate_defense` (analyzer.py lines 158-161). -/
def calculate_defense (stats : Stats) (team : Side) : ℚ :=
  pyMin 1 (stats.defenseOf team / 100)

/-- Per-team entry of the `performance_metrics` dictionary. -/
structure TeamPerformance where
  efficiency : ℚ
  pressure : ℚ
  defense : ℚ
deriving DecidableEq, Repr

/-- `GameAnalyzer._analyze_performance` (analyzer.py lines 109-122); the
inner dictionary values are evaluated in source order, so the first
efficiency error is the one raised. -/
def analyze_performance (stats : Stats) :
    Except PyErr (TeamPerformance × TeamPerformance) := do
  let he ← calculate_efficiency stats .home
  let hp := calculate_pressure stats .home
  let hd := calculate_defense stats .home
  let ae ← calculate_efficiency stats .away
  let ap := calculate_pressure stats .away
  let ad := calculate_defense stats .away
  .ok (⟨he, hp, hd⟩, ⟨ae, ap, ad⟩)

/-- `GameAnalyzer._parse_time_remaining` (analyzer.py lines 163-167):
`time_str.split(':')` then `int(parts[0]) * 60 + int(parts[1])`.  A string
without `':'` yields a single part, so `parts[1]` raises `IndexError`. -/
def parse_time_remaining (time_str : String) : Except PyErr Int :=
  match pySplit time_str (':') with
  | p0 :: p1 :: _ => do
      let m ← pyInt p0
      let s ← pyInt p1
      .ok (m * 60 + s)
  | _ => .error .indexError

/-- The `game_situation` dictionary that `_assess_game_situation` would
build — never actually constructed by the code as shipped (see below). -/
structure GameSituation where
  criticality : ℚ
  phase : String
  context : String
deriving DecidableEq, Repr

/-- `GameAnalyzer._assess_game_situation` (analyzer.py lines 124-133):
after parsing the clock and taking the absolute score difference, the
method calls `self._calculate_criticality`, which is defined nowhere in
the class or module, so attribute lookup raises `AttributeError` on every
call that reaches it. -/
def assess_game_situation (stats : Stats) : Except PyErr GameSituation := do
  let _time_remaining ← parse_time_remaining stats.game_time
  let _score_difference := |stats.home_score - stats.away_score|
  .error .attributeError

/-- The analysis dictionary built by `analyze_game_state` (analyzer.py
lines 45-50); its keys are exactly these four. -/
structure Analysis where
  key_moments : List GameMoment
  momentum : ℚ × ℚ
  performance_metrics : TeamPerformance × TeamPerformance
  game_situation : GameSituation
deriving DecidableEq, Repr

/-- Body of `GameAnalyzer.analyze_game_state` up to the dictionary literal:
the four values are computed in source order and the first exception
aborts the call. -/
def buildAnalysis (previous_stats : Option Stats) (stats : Stats) :
    Except PyErr Analysis := do
  let km := identify_key_moments stats
  let mom ← calculate_momentum previous_stats stats
  let perf ← analyze_performance stats
  let sit ← assess_game_situation stats
  .ok ⟨km, mom, perf, sit⟩

/-- `GameAnalyzer.analyze_game_state` (analyzer.py lines 35-53) as a state
transformer on the `self.previous_stats` field: the assignment
`self.previous_stats = current_stats` runs only after the analysis
dictionary is fully built, so an exception leaves the field untouched. -/
def analyze_game_state (previous_stats : Option Stats) (current_stats : Stats) :
    Except PyErr Analysis × Option Stats :=
  match buildAnalysis previous_stats current_stats with
  | .ok a => (.ok a, some current_stats)
  | .error e => (.error e, previous_stats)

end GameAnalyzer

/-! ## Validator (`src/utils/validators.py`) -/

/-- A game-data payload with the eight keys `validate_game_data` requires;
the presence and type checks of the source's `required_fields` loop are
satisfied by construction of this typed record.  Scores may be `int` or
`float` in the source, hence `ℚ`. -/
structure RawGameData where
  game_id : String
  timestamp : String
  home_team : String
  away_team : String
  home_score : ℚ
  away_score : ℚ
  period : Int
  game_time : String
deriving DecidableEq, Repr

/-- Days in a month for the Gregorian calendar, as enforced by
`datetime.strptime` when it constructs the parsed datetime. -/
def daysInMonth (year month : Nat) : Nat :=
  if month = 2 then
    if year % 4 = 0 && (year % 100 != 0 || year % 400 = 0) then 29 else 28
  else if month = 4 || month = 6 || month = 9 || month = 11 then 30
  else 31

/-- Embedding of `datetime.strptime(s, '%Y-%m-%d %H:%M:%S')` as a validity
check: the literal separators must match exactly, each numeric field is
one or more digits (at most 4 for `%Y`, at most 2 for the others), and the
parsed values must form a real calendar date and time of day. -/
def validTimestamp (s : String) : Bool :=
  match pySplit s (' ') with
  | [d, t] =>
    match pySplit d ('-'), pySplit t (':') with
    | [ys, mos, das], [hs, mis, ses] =>
      pyIsDigit ys && ys.data.length ≤ 4 &&
      pyIsDigit mos && mos.data.length ≤ 2 &&
      pyIsDigit das && das.data.length ≤ 2 &&
      pyIsDigit hs && hs.data.length ≤ 2 &&
      pyIsDigit mis && mis.data.length ≤ 2 &&
      pyIsDigit ses && ses.data.length ≤ 2 &&
      (let y := parseDigits ys.data
       let mo := parseDigits mos.data
       let da := parseDigits das.data
       1 ≤ mo && mo ≤ 12 && 1 ≤ da && da ≤ daysInMonth y mo &&
       parseDigits hs.data ≤ 23 && parseDigits mis.data ≤ 59 &&
       parseDigits ses.data ≤ 59)
    | _, _ => false
  | _ => false

/-- `validate_game_data` (validators.py lines 50-111), checks in source
order.  The two-variable unpacking `minutes, seconds = game_time.split(':')`
raises a plain `ValueError` (not `ValidationError`) when the split does not
yield exactly two parts. -/
def validate_game_data (data : RawGameData) : Except PyErr Bool := do
  if !validTimestamp data.timestamp then
    .error (.validationError ("Invalid timestamp format. Expected: YYYY-MM-DD HH:MM:SS"))
  else if data.home_score < 0 || data.away_score < 0 then
    .error (.validationError ("Scores cannot be negative"))
  else if !(pyStrContains data.game_time (':')) then
    .error (.validationError ("Invalid game time format. Expected: MM:SS"))
  else
    match pySplit data.game_time (':') with
    | [minutes, seconds] =>
      if !(pyIsDigit minutes && pyIsDigit seconds) then
        .error (.validationError ("Game time must contain valid numbers"))
      else if 60 ≤ parseDigits seconds.data then
        .error (.validationError ("Seconds must be less than 60"))
      else
        .ok true
    | _ => .error .valueError

/-! ## Generator (`src/commentary/generator.py`) -/

/-- The `CommentaryTemplate` dataclass. -/
structure CommentaryTemplate where
  pattern : String
  conditions : List (String × ℚ)
  style : String
  priority : Int
deriving DecidableEq, Repr

namespace CommentaryGenerator

/-- `CommentaryGenerator._load_templates` (generator.py lines 63-85). -/
def load_templates : List CommentaryTemplate :=
  [ { pattern := "{team} {action} as they {momentum_description}"
      conditions := [("momentum", 0.7)]
      style := "neutral"
      priority := 1 },
    { pattern := "What a {intensity} performance by {team}! {key_stat}"
      conditions := [("performance", 0.8)]
      style := "excited"
      priority := 2 },
    { pattern := "Looking at the numbers, {team}'s {stat_type} shows {analysis}"
      conditions := [("efficiency", 0.6)]
      style := "analytical"
      priority := 1 } ]

/-- The analysis dictionary as the generator reads it.  Every key the
generator accesses is read with `dict.get(key, default)`, so each is an
`Option` field (`none` = key absent).  `momentum` maps team name to a
rational; `performance_metrics` maps team name to a per-team metric
dictionary.  Keys the generator never reads (`key_moments`,
`game_situation`) are not represented. -/
structure AnalysisDict where
  home_score : Option Int
  away_score : Option Int
  home_team : Option String
  away_team : Option String
  momentum : Option (List (String × ℚ))
  performance_metrics : Option (List (String × List (String × ℚ)))
deriving DecidableEq, Repr

/-- `CommentaryGenerator._check_condition` (generator.py lines 150-162):
`'momentum'` takes `max` over the momentum dict's values (raising
`ValueError` when that dict is absent or empty); `'performance'` and
`'efficiency'` ask whether any team's `efficiency` entry meets the
threshold; unknown condition names never satisfy. -/
def check_condition (analysis : AnalysisDict) (condition : String) (threshold : ℚ) :
    Except PyErr Bool :=
  if condition = "momentum" then
    match pyMax ((analysis.momentum.getD []).map Prod.snd) with
    | .error e => .error e
    | .ok m => .ok (decide (threshold ≤ m))
  else if condition = "performance" || condition = "efficiency" then
    .ok (((analysis.performance_metrics.getD []).map Prod.snd).any
      (fun p => decide (threshold ≤ (p.lookup ("efficiency")).getD 0)))
  else
    .ok false

/-- Short-circuiting embedding of
`all(self._check_condition(analysis, c, th) for c, th in conditions)`. -/
def conditions_met (analysis : AnalysisDict) :
    List (String × ℚ) → Except PyErr Bool
  | [] => .ok true
  | (c, th) :: rest =>
      match check_condition analysis c th with
      | .error e => .error e
      | .ok b => if b then conditions_met analysis rest else .ok false

/-- `CommentaryGenerator._filter_templates` (generator.py lines 87-107):
keep templates of the requested style whose conditions are all met and
whose pattern is not in the recent-pattern history.  Style mismatch skips
a template before its conditions are evaluated (`continue`). -/
def filter_templates (last_used_patterns : List String) (analysis : AnalysisDict)
    (style : String) : List CommentaryTemplate → Except PyErr (List CommentaryTemplate)
  | [] => .ok []
  | t :: ts =>
      if t.style ≠ style then
        filter_templates last_used_patterns analysis style ts
      else
        match conditions_met analysis t.conditions with
        | .error e => .error e
        | .ok ok =>
          match filter_templates last_used_patterns analysis style ts with
          | .error e => .error e
          | .ok rest =>
            .ok (if ok && !(last_used_patterns.contains t.pattern) then t :: rest else rest)

/-- `CommentaryGenerator._select_template` (generator.py lines 109-123):
weight each template by `priority * uniform(0.8, 1.2)` and take the
maximum-weight one.  The random draws are passed in as `rand`, indexed by
the template's position in the filtered list; Python's `max` returns the
first maximal element, hence the strict comparison in the fold. -/
def select_template (templates : List CommentaryTemplate) (rand : Nat → ℚ) :
    Option CommentaryTemplate :=
  if templates.isEmpty then none
  else
    match templates.enum.map (fun p => (p.2, (p.2.priority : ℚ) * rand p.1)) with
    | [] => none
    | w :: ws => some (ws.foldl (fun best p => if best.2 < p.2 then p else best) w).1

/-- `CommentaryGenerator._get_leading_team` (generator.py lines 164-174). -/
def get_leading_team (analysis : AnalysisDict) : String :=
  let home_sc := analysis.home_score.getD 0
  let away_sc := analysis.away_score.getD 0
  if home_sc > away_sc then analysis.home_team.getD ("Home team")
  else if away_sc > home_sc then analysis.away_team.getD ("Away team")
  else analysis.home_team.getD ("Home team")

/-- `CommentaryGenerator._fill_template` (generator.py lines 125-143): the
context dictionary is built in source order, so after the `'team'` entry
is computed by `_get_leading_team`, the `'action'` entry looks up
`self._get_team_action` — a method defined nowhere in the class or module
— and attribute lookup raises `AttributeError` on every call. -/
def fill_template (_template : CommentaryTemplate) (analysis : AnalysisDict) :
    Except PyErr String :=
  let _team := get_leading_team analysis
  .error .attributeError

/-- `CommentaryGenerator._generate_fallback_commentary` (generator.py lines
145-148). -/
def generate_fallback_commentary (analysis : AnalysisDict) : String :=
  "The game continues with a score of " ++ toString (analysis.home_score.getD 0)
    ++ "-" ++ toString (analysis.away_score.getD 0) ++ "."

/-- Mutable state of a `CommentaryGenerator` instance: the template catalog
(set once in `__init__`) and the recent-pattern history. -/
structure State where
  templates : List CommentaryTemplate
  last_used_patterns : List String
deriving DecidableEq, Repr

/-- The `self.max_pattern_memory` field. -/
def max_pattern_memory : Nat := 5

/-- A freshly constructed `CommentaryGenerator`. -/
def State.init : State := { templates := load_templates, last_used_patterns := [] }

/-- Body of the `try` block of `generate_commentary` (generator.py lines
43-57): filter, select, fall back when nothing survives, otherwise fill
the template, push the pattern into the bounded history (evicting the
oldest entry beyond `max_pattern_memory`), and truncate to `max_length`. -/
def generate_commentary_try (g : State) (analysis : AnalysisDict) (style : String)
    (max_length : Nat) (rand : Nat → ℚ) : Except PyErr (String × State) :=
  match filter_templates g.last_used_patterns analysis style g.templates with
  | .error e => .error e
  | .ok relevant =>
    match select_template relevant rand with
    | none => .ok (generate_fallback_commentary analysis, g)
    | some t =>
      match fill_template t analysis with
      | .error e => .error e
      | .ok commentary =>
        let lup := g.last_used_patterns ++ [t.pattern]
        let lup := if lup.length > max_pattern_memory then lup.drop 1 else lup
        .ok (pyTake commentary max_length, { g with last_used_patterns := lup })

/-- `CommentaryGenerator.generate_commentary` (generator.py lines 26-61):
any exception escaping the `try` body is caught and converted to the
fallback sentence, leaving the instance state untouched. -/
def generate_commentary (g : State) (analysis : AnalysisDict) (style : String)
    (max_length : Nat) (rand : Nat → ℚ) : String × State :=
  match generate_commentary_try g analysis style max_length rand with
  | .ok r => r
  | .error _ => (generate_fallback_commentary analysis, g)

/-- Image of the analyzer's output dictionary (analyzer.py lines 45-50) in
the generator's view of an analysis dictionary: the four analyzer keys are
present (only `momentum` and `performance_metrics` being ones the
generator reads), and no score or team-name keys exist. -/
def analysisToDict (a : GameAnalyzer.Analysis) : AnalysisDict :=
  { home_score := none
    away_score := none
    home_team := none
    away_team := none
    momentum := some [("home", a.momentum.1), ("away", a.momentum.2)]
    performance_metrics := some
      [ ("home", [("efficiency", a.performance_metrics.1.efficiency),
                  ("pressure", a.performance_metrics.1.pressure),
                  ("defense", a.performance_metrics.1.defense)]),
        ("away", [("efficiency", a.performance_metrics.2.efficiency),
                  ("pressure", a.performance_metrics.2.pressure),
                  ("defense", a.performance_metrics.2.defense)]) ] }

/-- One call of `generate_commentary` described by its inputs, for
reasoning about sequences of calls. -/
structure Call where
  analysis : AnalysisDict
  style : String
  max_length : Nat
  rand : Nat → ℚ

/-- State reached after a sequence of `generate_commentary` calls. -/
def runCalls (g : State) : List Call → State
  | [] => g
  | c :: cs =>
      runCalls (generate_commentary g c.analysis c.style c.max_length c.rand).2 cs

end CommentaryGenerator

/-! ## Concrete instances used by the theorems below -/

/-- A benign snapshot: empty event and scoring lists, no optional keys. -/
def sampleStats : Stats :=
  { home_team := "Wolves", away_team := "Hawks", home_score := 0, away_score := 0,
    game_time := "10:00", recent_events := [], recent_scores := [],
    possession := none, home_attempts := none, home_successes := none,
    home_pressure := none, home_defense := none, away_attempts := none,
    away_successes := none, away_pressure := none, away_defense := none }

/-- A snapshot whose six recent scoring plays all belong to the away team. -/
def statsSixAwayScores : Stats :=
  { sampleStats with
      recent_scores := [⟨"Hawks"⟩, ⟨"Hawks"⟩, ⟨"Hawks"⟩, ⟨"Hawks"⟩, ⟨"Hawks"⟩, ⟨"Hawks"⟩] }

/-- A snapshot recording zero home attempts (`home_attempts` key present
with value 0). -/
def statsZeroAttempts : Stats := { sampleStats with home_attempts := some 0 }

/-- A scoring event carrying three hours (10800 s) of remaining time. -/
def lateScoreEvent : GameEvent :=
  { timestamp := "12:00", type := "score_change", description := "long goal",
    teams := ["Wolves"], time_remaining := some 10800 }

/-- A penalty event carrying half an hour (1800 s) of remaining time. -/
def earlyPenaltyEvent : GameEvent :=
  { timestamp := "02:00", type := "penalty", description := "late penalty",
    teams := ["Hawks"], time_remaining := some 1800 }

/-- A penalty event with no remaining-time key; two such events tie on
importance. -/
def penaltyEvent1 : GameEvent :=
  { timestamp := "08:10", type := "penalty", description := "first penalty",
    teams := ["Wolves"], time_remaining := none }

/-- A second penalty event, listed after `penaltyEvent1`. -/
def penaltyEvent2 : GameEvent :=
  { timestamp := "07:55", type := "penalty", description := "second penalty",
    teams := ["Hawks"], time_remaining := none }

/-- A snapshot whose recent events are the two tied penalties, in order. -/
def statsTiedEvents : Stats :=
  { sampleStats with recent_events := [penaltyEvent1, penaltyEvent2] }

/-- An analysis dictionary with none of the keys the generator reads. -/
def emptyAnalysisDict : CommentaryGenerator.AnalysisDict :=
  { home_score := none, away_score := none, home_team := none, away_team := none,
    momentum := none, performance_metrics := none }

/-- An analysis dictionary whose momentum favours the home team strongly
enough (0.8 ≥ 0.7) for the neutral template's condition. -/
def momentumAnalysisDict : CommentaryGenerator.AnalysisDict :=
  { emptyAnalysisDict with momentum := some [("home", 0.8), ("away", 0.2)] }

/-- The analysis dictionary of the spec's leading-team example: home 21,
away 14, no momentum data. -/
def leading2114Dict : CommentaryGenerator.AnalysisDict :=
  { home_score := some 21, away_score := some 14, home_team := some "Wolves",
    away_team := some "Hawks", momentum := none, performance_metrics := none }

/-- A structurally valid game-data payload, parametrized by its clock
string. -/
def sampleGameData (game_time : String) : RawGameData :=
  { game_id := "game-001", timestamp := "2024-01-01 12:00:00",
    home_team := "Wolves", away_team := "Hawks", home_score := 3,
    away_score := 2, period := 1, game_time := game_time }

/-! ## Helper lemmas -/

/-- The embedded Python `min` agrees with the order-theoretic `min` on `ℚ`. -/
lemma pyMin_eq_min (a b : ℚ) : pyMin a b = min a b := by
  by_cases h : a ≤ b <;> simp [pyMin, min_def, h]

/-- Every per-type base weight lies between the default 0.3 and the largest
entry 0.8. -/
lemma significant_events_bounds (t : String) :
    0.3 ≤ GameAnalyzer.significant_events t ∧ GameAnalyzer.significant_events t ≤ 0.8 := by
  simp only [GameAnalyzer.significant_events, List.lookup]
  repeat' split
  all_goals norm_num

/-- Rounding a non-negative rational half-to-even stays non-negative. -/
lemma rhe_nonneg {y : ℚ} (h : 0 ≤ y) : 0 ≤ roundHalfEven y := by
  have hf : (0:ℤ) ≤ ⌊y⌋ := Int.le_floor.mpr (by exact_mod_cast h)
  simp only [roundHalfEven]
  split_ifs <;> omega

/-- When `y` is not a half-integer, rounding `y` and `100 - y` half-to-even
gives values summing to exactly 100. -/
lemma rhe_pair {y : ℚ} (h : ∀ m : ℤ, y ≠ m + 1/2) :
    roundHalfEven y + roundHalfEven (100 - y) = 100 := by
  have h0 : (⌊y⌋ : ℚ) ≤ y := Int.floor_le y
  have h1 : y < ⌊y⌋ + 1 := Int.lt_floor_add_one y
  have hr : y - ⌊y⌋ ≠ 1/2 := fun hc => h ⌊y⌋ (by linarith)
  by_cases hz : y - ⌊y⌋ = 0
  · have hfl2 : ⌊(100:ℚ) - y⌋ = 100 - ⌊y⌋ := by
      apply Int.floor_eq_iff.mpr
      constructor <;> push_cast <;> linarith
    simp only [roundHalfEven]
    rw [hfl2]
    push_cast
    split_ifs <;> first
      | omega
      | (exfalso; rcases lt_or_gt_of_ne hr with hlt | hgt <;> push_cast at * <;> linarith)
  · have hz0 : 0 < y - ⌊y⌋ := lt_of_le_of_ne (by linarith) (Ne.symm hz)
    have hfl2 : ⌊(100:ℚ) - y⌋ = 99 - ⌊y⌋ := by
      apply Int.floor_eq_iff.mpr
      constructor <;> push_cast <;> linarith
    simp only [roundHalfEven]
    rw [hfl2]
    push_cast
    split_ifs <;> first
      | omega
      | (exfalso; rcases lt_or_gt_of_ne hr with hlt | hgt <;> push_cast at * <;> linarith)

/-- The two 2-decimal-rounded shares of a non-half-integer split sum to 1. -/
lemma pyRound2_pair (x : ℚ) (h : ∀ m : ℤ, x * 100 ≠ m + 1/2) :
    pyRound2 x + pyRound2 (1 - x) = 1 := by
  unfold pyRound2
  rw [show (1 - x) * 100 = 100 - x * 100 by ring]
  have hp := rhe_pair h
  rw [div_add_div_same]
  rw [show ((roundHalfEven (x * 100) : ℚ) + (roundHalfEven (100 - x * 100) : ℚ))
      = ((roundHalfEven (x * 100) + roundHalfEven (100 - x * 100) : ℤ) : ℚ) by push_cast; ring]
  rw [hp]
  norm_num

/-- 2-decimal rounding preserves non-negativity. -/
lemma pyRound2_nonneg {x : ℚ} (h : 0 ≤ x) : 0 ≤ pyRound2 x :=
  div_nonneg (by exact_mod_cast rhe_nonneg (mul_nonneg h (by norm_num))) (by norm_num)

/-- A momentum value of the form `0.5 + k/10`, scaled by 100, is never a
half-integer. -/
lemma no_half_int (k : ℤ) : ∀ m : ℤ, ((0.5:ℚ) + (k:ℚ)/10) * 100 ≠ m + 1/2 := by
  intro m hc
  have hq : (100 + 20 * k : ℚ) = 2 * m + 1 := by linarith
  have h2 : (100 + 20 * k : ℤ) = 2 * m + 1 := by exact_mod_cast hq
  omega

/-- A twentieth-integral momentum value divided by the possession-adjusted
total 21/20, scaled by 100, is never a half-integer. -/
lemma no_half_frac (j : ℤ) : ∀ m : ℤ, (((j:ℚ)/20) / (21/20)) * 100 ≠ m + 1/2 := by
  intro m hc
  have hx : (((j:ℚ)/20) / (21/20)) * 100 = 100 * j / 21 := by
    field_simp; ring
  rw [hx] at hc
  have hq : (200 * j : ℚ) = 42 * m + 21 := by
    field_simp at hc; linarith
  have h2 : (200 * j : ℤ) = 42 * m + 21 := by exact_mod_cast hq
  omega

/-- Invariants of the scoring-trend loop of `_calculate_momentum`: the pair
sum is preserved, the home side moves by integer multiples of 0.1, and each
side drops by at most 0.1 per processed scoring play. -/
lemma momentum_fold (ht : String) (l : List ScorePlay) :
    ∀ h0 a0 : ℚ,
    (l.foldl (GameAnalyzer.momentumStep ht) (h0, a0)).1 +
      (l.foldl (GameAnalyzer.momentumStep ht) (h0, a0)).2 = h0 + a0 ∧
    (∃ k : ℤ, (l.foldl (GameAnalyzer.momentumStep ht) (h0, a0)).1 = h0 + k/10) ∧
    h0 - l.length/10 ≤ (l.foldl (GameAnalyzer.momentumStep ht) (h0, a0)).1 ∧
    a0 - l.length/10 ≤ (l.foldl (GameAnalyzer.momentumStep ht) (h0, a0)).2 := by
  induction l with
  | nil =>
    intro h0 a0
    refine ⟨rfl, ⟨0, by norm_num⟩, by norm_num, by norm_num⟩
  | cons sp l ih =>
    intro h0 a0
    rw [List.foldl_cons]
    simp only [GameAnalyzer.momentumStep]
    by_cases hteam : sp.team = ht
    · rw [if_pos hteam]
      obtain ⟨hsum, ⟨k, hk⟩, hb1, hb2⟩ := ih (h0 + 0.1) (a0 - 0.1)
      refine ⟨by rw [hsum]; ring, ⟨k + 1, by rw [hk]; push_cast; ring⟩, ?_, ?_⟩
      · simp only [List.length_cons]
        push_cast
        linarith
      · simp only [List.length_cons]
        push_cast
        linarith
    · rw [if_neg hteam]
      obtain ⟨hsum, ⟨k, hk⟩, hb1, hb2⟩ := ih (h0 - 0.1) (a0 + 0.1)
      refine ⟨by rw [hsum]; ring, ⟨k - 1, by rw [hk]; push_cast; ring⟩, ?_, ?_⟩
      · simp only [List.length_cons]
        push_cast
        linarith
      · simp only [List.length_cons]
        push_cast
        linarith

/-- `momentDesc` is transitive. -/
lemma momentDesc_trans : ∀ a b c : GameMoment, GameAnalyzer.momentDesc a b = true →
    GameAnalyzer.momentDesc b c = true → GameAnalyzer.momentDesc a c = true := by
  intro a b c h1 h2
  simp only [GameAnalyzer.momentDesc, decide_eq_true_eq] at *
  exact le_trans h2 h1

/-- `momentDesc` is total. -/
lemma momentDesc_total : ∀ a b : GameMoment,
    (GameAnalyzer.momentDesc a b || GameAnalyzer.momentDesc b a) = true := by
  intro a b
  simp only [GameAnalyzer.momentDesc, Bool.or_eq_true, decide_eq_true_eq]
  exact le_total _ _

/-- Every accumulated key moment comes from an event whose importance
clears the momentum threshold. -/
lemma mem_key_moments_unsorted {stats : Stats} {m : GameMoment}
    (hm : m ∈ GameAnalyzer.key_moments_unsorted stats) :
    ∃ ev ∈ stats.recent_events,
      GameAnalyzer.momentum_threshold ≤ GameAnalyzer.calculate_event_importance ev ∧
      m = GameAnalyzer.momentOfEvent ev := by
  obtain ⟨ev, hev, hfe⟩ := List.mem_filterMap.mp hm
  split at hfe
  · exact ⟨ev, hev, by assumption, (Option.some_inj.mp hfe).symm⟩
  · cases hfe

/-- Every call of `generate_commentary` ends in the fallback sentence with
the state unchanged, because `_fill_template` raises `AttributeError` on
the template path and the top-level handler catches everything. -/
lemma generate_commentary_eq_fallback (g : CommentaryGenerator.State)
    (a : CommentaryGenerator.AnalysisDict) (style : String) (m : Nat) (r : Nat → ℚ) :
    CommentaryGenerator.generate_commentary g a style m r =
      (CommentaryGenerator.generate_fallback_commentary a, g) := by
  unfold CommentaryGenerator.generate_commentary CommentaryGenerator.generate_commentary_try
  cases hf : CommentaryGenerator.filter_templates g.last_used_patterns a style g.templates with
  | error e => rfl
  | ok rel =>
    cases hs : CommentaryGenerator.select_template rel r with
    | none => simp [hs]
    | some t => simp [hs, CommentaryGenerator.fill_template]

/-- The fallback sentence is never empty. -/
lemma generate_fallback_nonempty (a : CommentaryGenerator.AnalysisDict) :
    0 < (CommentaryGenerator.generate_fallback_commentary a).length := by
  unfold CommentaryGenerator.generate_fallback_commentary
  rw [String.length_append, String.length_append, String.length_append,
    String.length_append]
  have h35 : ("The game continues with a score of ").length = 35 := rfl
  omega

/-- No template whose pattern sits in the recent-pattern history survives
`_filter_templates`. -/
lemma filter_templates_excludes (lup : List String)
    (a : CommentaryGenerator.AnalysisDict) (style : String)
    (ts rel : List CommentaryTemplate)
    (h : CommentaryGenerator.filter_templates lup a style ts = .ok rel)
    (t : CommentaryTemplate) (ht : t ∈ rel) : t.pattern ∉ lup := by
  induction ts generalizing rel with
  | nil =>
    simp only [CommentaryGenerator.filter_templates] at h
    cases h; simp at ht
  | cons t0 ts ih =>
    simp only [CommentaryGenerator.filter_templates] at h
    split at h
    · exact ih rel h ht
    · split at h
      · cases h
      · split at h
        · cases h
        · rename_i rest hrest
          cases h
          split at ht
          · rename_i hcond
            rcases List.mem_cons.mp ht with rfl | hmem
            · simp at hcond
              exact hcond.2
            · exact ih rest hrest hmem
          · exact ih rest hrest ht

/-- Any sequence of generation calls leaves the generator state where it
started. -/
lemma runCalls_eq (calls : List CommentaryGenerator.Call) (g : CommentaryGenerator.State) :
    CommentaryGenerator.runCalls g calls = g := by
  induction calls generalizing g with
  | nil => rfl
  | cons c cs ih =>
    show CommentaryGenerator.runCalls
      (CommentaryGenerator.generate_commentary g c.analysis c.style c.max_length c.rand).2 cs = g
    rw [generate_commentary_eq_fallback]
    exact ih g

/-! ## Claim theorems -/

/-- Claim C1, counterexample: with a previous snapshot present, six recent
away scoring plays drive the home momentum to −0.1 < 0, so the momentum
mapping is not always non-negative. -/
theorem calculate_momentum_negative :
    GameAnalyzer.calculate_momentum (some sampleStats) statsSixAwayScores =
      .ok (-(1/10), 11/10) ∧ ¬ (0 ≤ (-(1/10) : ℚ)) := by
  refine ⟨?_, by norm_num⟩
  have hfold : statsSixAwayScores.recent_scores.foldl
      (GameAnalyzer.momentumStep statsSixAwayScores.home_team) (0.5, 0.5) =
      (-(1/10), 11/10) := by
    simp only [statsSixAwayScores, sampleStats, List.foldl_cons, List.foldl_nil,
      GameAnalyzer.momentumStep, if_neg (by decide : ¬ ("Hawks" : String) = "Wolves")]
    norm_num
  simp only [GameAnalyzer.calculate_momentum, hfold,
    show statsSixAwayScores.possession = none from rfl]
  norm_num [pyRound2, roundHalfEven]

/-- Claim C1, amended: for every previous snapshot and current snapshot the
momentum computation succeeds and its two values sum to exactly 1; both
values are non-negative whenever the list of recent scoring plays has at
most 5 entries (with more, the trailing side can go negative). -/
theorem calculate_momentum_amended (prev : Option Stats) (s : Stats) :
    ∃ h a, GameAnalyzer.calculate_momentum prev s = .ok (h, a) ∧ h + a = 1 ∧
      (s.recent_scores.length ≤ 5 → 0 ≤ h ∧ 0 ≤ a) := by
  cases prev with
  | none => exact ⟨0.5, 0.5, rfl, by norm_num, fun _ => by norm_num⟩
  | some p =>
    obtain ⟨hsum, ⟨k, hk⟩, hb1, hb2⟩ :=
      momentum_fold s.home_team s.recent_scores 0.5 0.5
    set q := s.recent_scores.foldl (GameAnalyzer.momentumStep s.home_team) (0.5, 0.5)
      with hq
    have hs1 : q.1 + q.2 = 1 := by rw [hsum]; norm_num
    have hlen : s.recent_scores.length ≤ 5 →
        0 ≤ q.1 ∧ 0 ≤ q.2 := by
      intro hl
      have hcast : ((s.recent_scores.length : ℚ)) ≤ 5 := by exact_mod_cast hl
      constructor <;> [skip; skip] <;> [have := hb1; have := hb2] <;> [linarith; linarith]
    cases hposs : s.possession with
    | none =>
      simp only [GameAnalyzer.calculate_momentum, hposs, ← hq]
      rw [if_neg (by rw [hs1]; norm_num : ¬ (q.1 + q.2 = 0))]
      refine ⟨pyRound2 (q.1 / (q.1 + q.2)), pyRound2 (q.2 / (q.1 + q.2)), rfl, ?_, ?_⟩
      · have hx1 : q.1 / (q.1 + q.2) = q.1 := by rw [hs1, div_one]
        have hx2 : q.2 / (q.1 + q.2) = 1 - q.1 := by rw [hs1, div_one]; linarith
        rw [hx1, hx2]
        exact pyRound2_pair q.1 (by rw [hk]; exact no_half_int k)
      · intro hl
        obtain ⟨hq1, hq2⟩ := hlen hl
        have ht0 : (0:ℚ) ≤ q.1 + q.2 := by rw [hs1]; norm_num
        exact ⟨pyRound2_nonneg (div_nonneg hq1 ht0),
               pyRound2_nonneg (div_nonneg hq2 ht0)⟩
    | some poss =>
      simp only [GameAnalyzer.calculate_momentum, hposs, ← hq]
      by_cases hp : poss = s.home_team
      · rw [if_pos hp]
        have htot : (q.1 + 0.05) + q.2 = 21/20 := by linarith
        rw [if_neg (by rw [htot]; norm_num : ¬ ((q.1 + 0.05) + q.2 = 0))]
        refine ⟨pyRound2 ((q.1 + 0.05) / ((q.1 + 0.05) + q.2)),
                pyRound2 (q.2 / ((q.1 + 0.05) + q.2)), rfl, ?_, ?_⟩
        · have hnum : q.1 + 0.05 = ((2*k+11 : ℤ) : ℚ)/20 := by
            rw [hk]; push_cast; ring
          have hx2 : q.2 / ((q.1 + 0.05) + q.2) =
              1 - (q.1 + 0.05) / ((q.1 + 0.05) + q.2) := by
            rw [htot]
            field_simp
            linarith
          rw [hx2]
          exact pyRound2_pair _ (by rw [htot, hnum]; exact no_half_frac (2*k+11))
        · intro hl
          obtain ⟨hq1, hq2⟩ := hlen hl
          have ht0 : (0:ℚ) ≤ (q.1 + 0.05) + q.2 := by rw [htot]; norm_num
          exact ⟨pyRound2_nonneg (div_nonneg (by linarith) ht0),
                 pyRound2_nonneg (div_nonneg hq2 ht0)⟩
      · rw [if_neg hp]
        have htot : q.1 + (q.2 + 0.05) = 21/20 := by linarith
        rw [if_neg (by rw [htot]; norm_num : ¬ (q.1 + (q.2 + 0.05) = 0))]
        refine ⟨pyRound2 (q.1 / (q.1 + (q.2 + 0.05))),
                pyRound2 ((q.2 + 0.05) / (q.1 + (q.2 + 0.05))), rfl, ?_, ?_⟩
        · have hnum : q.1 = ((2*k+10 : ℤ) : ℚ)/20 := by
            rw [hk]; push_cast; ring
          have hx2 : (q.2 + 0.05) / (q.1 + (q.2 + 0.05)) =
              1 - q.1 / (q.1 + (q.2 + 0.05)) := by
            rw [htot]
            field_simp
            linarith
          rw [hx2]
          exact pyRound2_pair _ (by rw [htot, hnum]; exact no_half_frac (2*k+10))
        · intro hl
          obtain ⟨hq1, hq2⟩ := hlen hl
          have ht0 : (0:ℚ) ≤ q.1 + (q.2 + 0.05) := by rw [htot]; norm_num
          exact ⟨pyRound2_nonneg (div_nonneg hq1 ht0),
                 pyRound2_nonneg (div_nonneg (by linarith) ht0)⟩

/-- Witness for `calculate_momentum_amended` at a snapshot with no recent
scoring plays. -/
theorem calculate_momentum_amended_witness :
    ∃ h a, GameAnalyzer.calculate_momentum (some sampleStats) sampleStats = .ok (h, a) ∧
      h + a = 1 ∧ 0 ≤ h ∧ 0 ≤ a := by
  obtain ⟨h, a, h1, h2, h3⟩ := calculate_momentum_amended (some sampleStats) sampleStats
  obtain ⟨h4, h5⟩ := h3 (by decide)
  exact ⟨h, a, h1, h2, h4, h5⟩

/-- Claim C2, counterexample: with `maxLength = 10` the generator returns
the 39-character fallback sentence untruncated, exceeding the bound. -/
theorem generate_commentary_exceeds_max_length :
    ((CommentaryGenerator.generate_commentary CommentaryGenerator.State.init
        emptyAnalysisDict ("neutral") 10 (fun _ => 1)).1).length = 39 ∧
    ¬ ((CommentaryGenerator.generate_commentary CommentaryGenerator.State.init
        emptyAnalysisDict ("neutral") 10 (fun _ => 1)).1).length ≤ 10 := by
  refine ⟨?_, ?_⟩ <;> decide

/-- Claim C2, amended: `generate_commentary` never raises past its
boundary and always returns a non-empty string; in this code every call
returns the fallback sentence with the state unchanged (the template path
cannot complete because `_fill_template` raises), and the fallback is not
truncated to `maxLength`. -/
theorem generate_commentary_amended (g : CommentaryGenerator.State)
    (a : CommentaryGenerator.AnalysisDict) (style : String) (m : Nat) (r : Nat → ℚ) :
    CommentaryGenerator.generate_commentary g a style m r =
      (CommentaryGenerator.generate_fallback_commentary a, g) ∧
    0 < (CommentaryGenerator.generate_commentary g a style m r).1.length :=
  ⟨generate_commentary_eq_fallback g a style m r,
   by rw [generate_commentary_eq_fallback]; exact generate_fallback_nonempty a⟩

/-- Claim C3: the key-moments list is sorted descending by importance,
stably (tied moments keep their original event order), every returned
moment's importance reaches the 0.6 momentum threshold, and the
`momentum_shift` flag holds exactly when importance exceeds 0.7. -/
theorem identify_key_moments_spec (stats : Stats) :
    (GameAnalyzer.identify_key_moments stats).Pairwise
      (fun a b => b.importance ≤ a.importance) ∧
    (∀ m ∈ GameAnalyzer.identify_key_moments stats,
      GameAnalyzer.momentum_threshold ≤ m.importance) ∧
    (∀ m ∈ GameAnalyzer.identify_key_moments stats,
      (m.momentum_shift = true ↔ 0.7 < m.importance)) ∧
    (∀ a b : GameMoment, [a, b].Sublist (GameAnalyzer.key_moments_unsorted stats) →
      a.importance = b.importance →
      [a, b].Sublist (GameAnalyzer.identify_key_moments stats)) := by
  refine ⟨?_, fun m hm => ?_, fun m hm => ?_, fun a b hsub heq => ?_⟩
  · have h := List.sorted_mergeSort momentDesc_trans momentDesc_total
      (GameAnalyzer.key_moments_unsorted stats)
    exact h.imp (fun hab => by
      simpa [GameAnalyzer.momentDesc, decide_eq_true_eq] using hab)
  · rw [GameAnalyzer.identify_key_moments, List.mem_mergeSort] at hm
    obtain ⟨ev, _, hth, rfl⟩ := mem_key_moments_unsorted hm
    simpa [GameAnalyzer.momentOfEvent] using hth
  · rw [GameAnalyzer.identify_key_moments, List.mem_mergeSort] at hm
    obtain ⟨ev, _, hth, rfl⟩ := mem_key_moments_unsorted hm
    simp [GameAnalyzer.momentOfEvent]
  · exact List.pair_sublist_mergeSort momentDesc_trans momentDesc_total
      (by simp [GameAnalyzer.momentDesc, heq]) hsub

/-- Witness for `identify_key_moments_spec`: two penalty events of equal
importance appear in the output in their original order. -/
theorem identify_key_moments_spec_witness :
    [GameAnalyzer.momentOfEvent penaltyEvent1,
     GameAnalyzer.momentOfEvent penaltyEvent2].Sublist
      (GameAnalyzer.identify_key_moments statsTiedEvents) := by
  have hbase : GameAnalyzer.key_moments_unsorted statsTiedEvents =
      [GameAnalyzer.momentOfEvent penaltyEvent1,
       GameAnalyzer.momentOfEvent penaltyEvent2] := by
    have hsig : GameAnalyzer.significant_events (pyToLower ("penalty")) = 0.6 := rfl
    have himp : GameAnalyzer.momentum_threshold ≤
        GameAnalyzer.calculate_event_importance penaltyEvent1 := by
      simp only [GameAnalyzer.calculate_event_importance, penaltyEvent1, hsig]
      norm_num [pyMin, GameAnalyzer.momentum_threshold]
    have himp2 : GameAnalyzer.momentum_threshold ≤
        GameAnalyzer.calculate_event_importance penaltyEvent2 := by
      simp only [GameAnalyzer.calculate_event_importance, penaltyEvent2, hsig]
      norm_num [pyMin, GameAnalyzer.momentum_threshold]
    simp [GameAnalyzer.key_moments_unsorted, statsTiedEvents, sampleStats, himp, himp2]
  exact (identify_key_moments_spec statsTiedEvents).2.2.2 _ _
    (by rw [hbase]) rfl

/-- Claim C4, counterexample: a scoring event with 10800 seconds remaining
gets importance −0.4, outside `[0, 1]`. -/
theorem importance_negative_on_large_time :
    GameAnalyzer.calculate_event_importance lateScoreEvent = -(2/5) ∧
    ¬ (0 ≤ GameAnalyzer.calculate_event_importance lateScoreEvent) := by
  have h : GameAnalyzer.calculate_event_importance lateScoreEvent = -(2/5) := by
    have hs : GameAnalyzer.significant_events (pyToLower ("score_change")) = 0.8 := rfl
    simp only [GameAnalyzer.calculate_event_importance, lateScoreEvent, hs, pyMin]
    norm_num
  exact ⟨h, by rw [h]; norm_num⟩

/-- Claim C4, amended: importance equals the per-type base weight times
`1 + min(1, 1.5 − t/3600)` when a seconds-remaining value `t` is present
(the bare base weight otherwise), clamped above at 1; it is always ≤ 1,
and it is non-negative whenever the event has no seconds-remaining value
or that value is at most 9000. -/
theorem calculate_event_importance_amended (ev : GameEvent) :
    (∀ t, ev.time_remaining = some t →
      GameAnalyzer.calculate_event_importance ev =
        min 1 (GameAnalyzer.significant_events (pyToLower ev.type) *
          (1 + min 1 (1.5 - t / 3600)))) ∧
    (ev.time_remaining = none →
      GameAnalyzer.calculate_event_importance ev =
        min 1 (GameAnalyzer.significant_events (pyToLower ev.type))) ∧
    GameAnalyzer.calculate_event_importance ev ≤ 1 ∧
    (∀ t, ev.time_remaining = some t → t ≤ 9000 →
      0 ≤ GameAnalyzer.calculate_event_importance ev) ∧
    (ev.time_remaining = none → 0 ≤ GameAnalyzer.calculate_event_importance ev) := by
  obtain ⟨hb0, hb1⟩ := significant_events_bounds (pyToLower ev.type)
  have heqS : ∀ t, ev.time_remaining = some t →
      GameAnalyzer.calculate_event_importance ev =
        min 1 (GameAnalyzer.significant_events (pyToLower ev.type) *
          (1 + min 1 (1.5 - t / 3600))) := fun t ht => by
    simp [GameAnalyzer.calculate_event_importance, ht, pyMin_eq_min]
  have heqN : ev.time_remaining = none →
      GameAnalyzer.calculate_event_importance ev =
        min 1 (GameAnalyzer.significant_events (pyToLower ev.type)) := fun ht => by
    simp [GameAnalyzer.calculate_event_importance, ht, pyMin_eq_min]
  refine ⟨heqS, heqN, ?_, fun t ht hle => ?_, fun ht => ?_⟩
  · cases hcase : ev.time_remaining with
    | none => rw [heqN hcase]; exact min_le_left _ _
    | some t => rw [heqS t hcase]; exact min_le_left _ _
  · rw [heqS t ht]
    have hdiv : (t : ℚ) / 3600 ≤ 2.5 := by
      rw [div_le_iff₀ (by norm_num : (0:ℚ) < 3600)]; linarith
    have hmin : (-1 : ℚ) ≤ min 1 (1.5 - t / 3600) := le_min (by norm_num) (by linarith)
    exact le_min (by norm_num) (mul_nonneg (by linarith) (by linarith))
  · rw [heqN ht]; exact le_min (by norm_num) (by linarith)

/-- Witness for `calculate_event_importance_amended`: a penalty with 1800
seconds remaining has importance inside `[0, 1]`. -/
theorem calculate_event_importance_amended_witness :
    GameAnalyzer.calculate_event_importance earlyPenaltyEvent ≤ 1 ∧
    0 ≤ GameAnalyzer.calculate_event_importance earlyPenaltyEvent :=
  ⟨(calculate_event_importance_amended earlyPenaltyEvent).2.2.1,
   (calculate_event_importance_amended earlyPenaltyEvent).2.2.2.1 1800 rfl (by norm_num)⟩

/-- Claim C5: whenever an `analyze_game_state` call errors, the error
surfaces and the previous-snapshot state is exactly what it was before the
call — the failing snapshot is not committed. -/
theorem analyze_error_preserves_state (prev : Option Stats) (cur : Stats) (e : PyErr)
    (h : (GameAnalyzer.analyze_game_state prev cur).1 = .error e) :
    (GameAnalyzer.analyze_game_state prev cur).2 = prev := by
  unfold GameAnalyzer.analyze_game_state at h ⊢
  cases hb : GameAnalyzer.buildAnalysis prev cur <;> simp [hb] at h ⊢

/-- Witness for `analyze_error_preserves_state`: a benign snapshot still
errors (with `AttributeError`, since `_calculate_criticality` does not
exist) and the state is untouched. -/
theorem analyze_error_preserves_state_witness :
    (GameAnalyzer.analyze_game_state none sampleStats).1 = .error .attributeError ∧
    (GameAnalyzer.analyze_game_state none sampleStats).2 = none :=
  ⟨by decide, analyze_error_preserves_state none sampleStats .attributeError (by decide)⟩

/-- Claim C6, counterexample: a snapshot recording `home_attempts = 0`
(key present with value zero) makes the efficiency computation divide by
zero. -/
theorem efficiency_divides_by_zero_on_zero_attempts :
    GameAnalyzer.calculate_efficiency statsZeroAttempts .home =
      .error .zeroDivisionError := by decide

/-- Claim C6, amended: the efficiency computation divides by zero only
when the attempts key is present with value 0; an absent attempts key
defaults to 1, so a team with no recorded attempts and zero successes gets
efficiency 0.0. -/
theorem calculate_efficiency_amended (s : Stats) (team : Side) :
    (s.attemptsOf team ≠ 0 → ∃ q, GameAnalyzer.calculate_efficiency s team = .ok q) ∧
    (s.attemptsPresent team = false → s.attemptsOf team = 1) ∧
    (s.attemptsPresent team = false → s.successesOf team = 0 →
      GameAnalyzer.calculate_efficiency s team = .ok 0) := by
  refine ⟨fun h => ?_, fun h => ?_, fun h h0 => ?_⟩
  · exact ⟨pyRound3 (s.successesOf team / s.attemptsOf team),
      by simp [GameAnalyzer.calculate_efficiency, h]⟩
  · cases team <;> cases hA : s.home_attempts <;> cases hB : s.away_attempts <;>
      simp_all [Stats.attemptsPresent, Stats.attemptsOf]
  · have h1 : s.attemptsOf team = 1 := by
      cases team <;> cases hA : s.home_attempts <;> cases hB : s.away_attempts <;>
        simp_all [Stats.attemptsPresent, Stats.attemptsOf]
    simp only [GameAnalyzer.calculate_efficiency, h1, h0]
    norm_num [pyRound3, roundHalfEven]

/-- Witness for `calculate_efficiency_amended`: the benign snapshot has no
attempts key and no successes key, so its home efficiency is 0. -/
theorem calculate_efficiency_amended_witness :
    GameAnalyzer.calculate_efficiency sampleStats .home = .ok 0 :=
  (calculate_efficiency_amended sampleStats .home).2.2 (by decide) (by decide)

/-- Claim C7: after any sequence of generate calls the recent-pattern
history holds at most `max_pattern_memory` (5) entries; every call leaves
the history unchanged (all calls end in the fallback); and any template
surviving the filter has its pattern outside the history. -/
theorem generator_history_spec :
    (∀ calls, (CommentaryGenerator.runCalls CommentaryGenerator.State.init
        calls).last_used_patterns.length ≤ CommentaryGenerator.max_pattern_memory) ∧
    (∀ g a style m r,
      (CommentaryGenerator.generate_commentary g a style m r).2 = g) ∧
    (∀ lup a style ts rel t,
      CommentaryGenerator.filter_templates lup a style ts = .ok rel →
      t ∈ rel → t.pattern ∉ lup) := by
  refine ⟨fun calls => ?_, fun g a style m r => ?_,
    fun lup a style ts rel t h ht => filter_templates_excludes lup a style ts rel h t ht⟩
  · rw [runCalls_eq]
    simp [CommentaryGenerator.State.init, CommentaryGenerator.max_pattern_memory]
  · rw [generate_commentary_eq_fallback]

/-- Witness for `generator_history_spec`: with the excited template's
pattern in the history and strong home momentum, the neutral template
survives filtering, and its pattern is indeed outside the history. -/
theorem generator_history_spec_witness :
    ({ pattern := "{team} {action} as they {momentum_description}",
       conditions := [("momentum", 0.7)], style := "neutral", priority := 1 } :
      CommentaryTemplate).pattern ∉
      ["What a {intensity} performance by {team}! {key_stat}"] := by
  have hfilter : CommentaryGenerator.filter_templates
      ["What a {intensity} performance by {team}! {key_stat}"]
      momentumAnalysisDict ("neutral") CommentaryGenerator.load_templates =
      .ok [{ pattern := "{team} {action} as they {momentum_description}",
             conditions := [("momentum", 0.7)], style := "neutral", priority := 1 }] := by
    norm_num [CommentaryGenerator.filter_templates, CommentaryGenerator.load_templates,
      CommentaryGenerator.conditions_met, CommentaryGenerator.check_condition,
      pyMax, momentumAnalysisDict, emptyAnalysisDict]
    simp +decide
  exact generator_history_spec.2.2
    ["What a {intensity} performance by {team}! {key_stat}"]
    momentumAnalysisDict ("neutral") CommentaryGenerator.load_templates _ _
    hfilter (List.mem_singleton.mpr rfl)

/-- Claim C8: a snapshot whose `game_time` is `"75:00"` passes validation
and its clock parses to 4500 seconds remaining, while `game_time` =
`"10:75"` is rejected by validation because seconds ≥ 60. -/
theorem game_time_validation :
    validate_game_data (sampleGameData ("75:00")) = .ok true ∧
    GameAnalyzer.parse_time_remaining ("75:00") = .ok 4500 ∧
    validate_game_data (sampleGameData ("10:75")) =
      .error (.validationError ("Seconds must be less than 60")) := by
  refine ⟨?_, ?_, ?_⟩ <;> decide

/-- Claim C9: leading-team selection returns the team with the higher
score, and the home team on ties. -/
theorem get_leading_team_spec (d : CommentaryGenerator.AnalysisDict) :
    (d.away_score.getD 0 < d.home_score.getD 0 →
      CommentaryGenerator.get_leading_team d = d.home_team.getD ("Home team")) ∧
    (d.home_score.getD 0 < d.away_score.getD 0 →
      CommentaryGenerator.get_leading_team d = d.away_team.getD ("Away team")) ∧
    (d.home_score.getD 0 = d.away_score.getD 0 →
      CommentaryGenerator.get_leading_team d = d.home_team.getD ("Home team")) := by
  simp only [CommentaryGenerator.get_leading_team]
  refine ⟨fun h => ?_, fun h => ?_, fun h => ?_⟩ <;> split_ifs <;>
    first | rfl | omega

/-- Witness for `get_leading_team_spec`: with home 21, away 14 and no
momentum data, the home team is returned. -/
theorem get_leading_team_spec_witness :
    CommentaryGenerator.get_leading_team leading2114Dict = "Wolves" :=
  (get_leading_team_spec leading2114Dict).1 (by decide)

/-- Claim C10: on any analysis dictionary actually produced by the
analyzer (whose keys are exactly `key_moments`, `momentum`,
`performance_metrics`, `game_situation`), the fallback reads the absent
score keys as 0, so it returns the fixed sentence regardless of the real
scores. -/
theorem fallback_on_analyzer_output (a : GameAnalyzer.Analysis) :
    CommentaryGenerator.generate_fallback_commentary
      (CommentaryGenerator.analysisToDict a) =
      "The game continues with a score of 0-0." := rfl
